import Mathlib

/-
Verification of the screenshot rendering service (src/src/app.js and its
configuration src/unnamed/part_002).  The file shallowly embeds the parts of
the program that the checked properties talk about:

* the render-mode classifier detectPerformanceMode (app.js lines 1020-1032),
* the request validator validateScreenshotParams (lines 1181-1202 / 358-379),
* the smart-crop bounding-box computation (the page.evaluate body at lines
  1519-1559 / 627-667),
* the quality/format handling of the capture options (lines 1571-1596),
* admission in the POST /screenshot handler, validation, cleanup and
  response flow (lines 1005-1015 and 1236-1623),
* the health tick of the browser pool and restartBrowser (lines 1047-1086), and
* a completion-time model of the image-wait helper waitForAllImages
  (lines 1093-1176).

JavaScript numbers appearing in these code paths are integer-valued, so they
are modelled with Int (coordinates, dimensions) and Nat (counters); strings
with String; possibly-absent request fields with Option.  Truthiness of a
numeric field is "present and nonzero", of a string field "present and
nonempty", exactly as the if-guards of JavaScript behave on those values.
-/

namespace Screenshot

/-! ## Render-mode classifier (app.js lines 1020-1032)

detectPerformanceMode counts the matches of the regular expressions
/<img[^>]*>/gi and /background-image\s*:\s*url/gi in the raw htmlContent and
tiers the request from the total.  The two counters below implement exactly
the left-to-right, non-overlapping, case-insensitive match semantics of
those regexes on a character list. -/

/-- Case-insensitive match of a literal pattern (given in lowercase) against a
prefix of the input; returns the remaining input on success.  Mirrors how the
literal parts of the JS regexes consume characters (JS regexes here are
ASCII-literal and the i-flag folds ASCII case, as Char.toLower does). -/
def matchCI : List Char → List Char → Option (List Char)
  | [], s => some s
  | _ :: _, [] => none
  | p :: ps, c :: cs => if c.toLower = p then matchCI ps cs else none

/-- The literal opening of the img-tag regex. -/
def imgPat : List Char := "<img".toList

/-- State machine for counting non-overlapping matches of /<img[^>]*>/gi :
once "<img" is seen (case-insensitively) the regex consumes greedily up to
the first following ">"; if no ">" follows, that "<img" produces no match
(and no later match can exist either, since every match needs a ">").
The Bool is true while inside a pending "<img ... >" match. -/
def countImgAux : Bool → List Char → Nat
  | _, [] => 0
  | true, c :: cs => if c = '>' then 1 + countImgAux false cs else countImgAux true cs
  | false, c :: cs =>
      if (matchCI imgPat (c :: cs)).isSome then countImgAux true cs
      else countImgAux false cs

/-- Number of matches of /<img[^>]*>/gi in htmlContent
(the imgCount of detectPerformanceMode). -/
def countImgTags (htmlContent : String) : Nat :=
  countImgAux false htmlContent.toList

/-- Whitespace class of the JS regex escape for spaces (ECMAScript WhiteSpace
and LineTerminator characters). -/
def isRegexSpace (c : Char) : Bool :=
  let n := c.toNat
  n == 0x20 || n == 0x9 || n == 0xA || n == 0xB || n == 0xC || n == 0xD ||
  n == 0xA0 || n == 0x1680 || (decide (0x2000 <= n) && decide (n <= 0x200A)) ||
  n == 0x2028 || n == 0x2029 || n == 0x202F || n == 0x205F ||
  n == 0x3000 || n == 0xFEFF

/-- States of the scanner for /background-image\s*:\s*url/gi .
lit carries the not-yet-matched remainder of "background-image", ws1 skips
spaces before the colon, ws2 after it, lit2 carries the remainder of "url". -/
inductive BgSt where
  | search
  | lit (rest : List Char)
  | ws1
  | ws2
  | lit2 (rest : List Char)

/-- On a mismatch the regex engine rescans from the next untried position.
Every character consumed so far by a failed attempt is a non-'b' character of
"background-image", whitespace, or ':' (the first letter of the pattern, 'b', occurs
in none of them), so the only position that can start a new match is the
mismatching character itself: restart there. -/
def bgFail (c : Char) : BgSt :=
  if c.toLower = 'b' then BgSt.lit ("ackground-image".toList) else BgSt.search

/-- Scanner counting non-overlapping matches of /background-image\s*:\s*url/gi. -/
def countBgAux : BgSt → List Char → Nat
  | _, [] => 0
  | BgSt.search, c :: cs => countBgAux (bgFail c) cs
  | BgSt.lit [], c :: cs => countBgAux (bgFail c) cs
  | BgSt.lit (p :: ps), c :: cs =>
      if c.toLower = p then
        (if ps.isEmpty then countBgAux BgSt.ws1 cs else countBgAux (BgSt.lit ps) cs)
      else countBgAux (bgFail c) cs
  | BgSt.ws1, c :: cs =>
      if isRegexSpace c then countBgAux BgSt.ws1 cs
      else if c = ':' then countBgAux BgSt.ws2 cs
      else countBgAux (bgFail c) cs
  | BgSt.ws2, c :: cs =>
      if isRegexSpace c then countBgAux BgSt.ws2 cs
      else if c.toLower = 'u' then countBgAux (BgSt.lit2 ("rl".toList)) cs
      else countBgAux (bgFail c) cs
  | BgSt.lit2 [], c :: cs => countBgAux (bgFail c) cs
  | BgSt.lit2 (p :: ps), c :: cs =>
      if c.toLower = p then
        (if ps.isEmpty then 1 + countBgAux BgSt.search cs else countBgAux (BgSt.lit2 ps) cs)
      else countBgAux (bgFail c) cs

/-- Number of matches of /background-image\s*:\s*url/gi in htmlContent
(the backgroundImages count of detectPerformanceMode). -/
def countBgUrl (htmlContent : String) : Nat :=
  countBgAux BgSt.search htmlContent.toList

/-- The three performance tiers of the render-mode selector. -/
inductive RenderMode where
  | ultrafast
  | fast
  | standard
deriving DecidableEq, Repr

/-- detectPerformanceMode (app.js lines 1020-1032): tier from the total count
of img-tag and background-image matches. -/
def detectPerformanceMode (htmlContent : String) : RenderMode :=
  let imgCount := countImgTags htmlContent
  let backgroundImages := countBgUrl htmlContent
  let totalImages := imgCount + backgroundImages
  if totalImages = 0 then RenderMode.ultrafast
  else if totalImages ≤ 2 then RenderMode.fast
  else RenderMode.standard

/-! ## Completion-time model of waitForAllImages (app.js lines 1093-1176)

waitForAllImages(page, timeout) runs one page.evaluate whose body awaits
Promise.all over every img element (resolving on the load or error event)
and, for elements with a CSS background-image, over probe Image() loads.
The timeout parameter — documented in the JSDoc of the function as the timeout in
milliseconds, and fed from options.imageWaitTime at the call site (line
1472-1473) — is never referenced in the body: no timer races the promises.
We model each image by the instant at which its load or error event fires
(some t), or none if neither event ever fires (a never-resolving source).
The evaluate completes when all promises have settled, so its completion
instant is the maximum of the per-image instants, and none (never) if any
image never settles. -/

/-- Instant at which Promise.all over the given per-image settle instants
resolves: the maximum, or none if some promise never settles. -/
def joinAll : List (Option Nat) → Option Nat
  | [] => some 0
  | t :: ts =>
      match t, joinAll ts with
      | some a, some b => some (max a b)
      | _, _ => none

/-- Instant at which waitForAllImages returns, given the settle instants of
the img elements and of the background-image probes.  The timeout argument is
carried because the source function takes it, but the source body never uses
it, so it does not appear on the right-hand side. -/
def waitForAllImagesTime (imgTimes bgTimes : List (Option Nat)) (timeout : Nat) : Option Nat :=
  joinAll (imgTimes ++ bgTimes)

/-! ## Browser pool: health tick and restartBrowser (app.js lines 1047-1086)

State of the module-level browser handle: whether the browser variable is
set, whether it reports connected, and the served-request counter
totalRequestsProcessed.  restartBrowser wraps close + counter reset +
initializeBrowser in one try block whose catch rethrows, so a failing
browser.close() aborts the whole restart before the counter reset and the
relaunch.  The health tick (the setInterval body in initializeBrowser)
restarts only when totalRequestsProcessed strictly exceeds
config.browserPool.restartThreshold. -/

structure PoolState where
  browserExists : Bool
  connected : Bool
  totalRequestsProcessed : Nat
deriving DecidableEq, Repr

/-- Outcomes of the fallible browser operations during a restart. -/
structure PoolEnv where
  closeOk : Bool
  launchOk : Bool
deriving DecidableEq, Repr

structure RestartResult where
  /-- restartBrowser rethrew an error to its caller. -/
  threw : Bool
  st : PoolState
  /-- initializeBrowser (the relaunch) was reached. -/
  relaunchAttempted : Bool
deriving DecidableEq, Repr

/-- restartBrowser (app.js lines 1076-1086): close the old handle, zero the
served counter, relaunch; any error is rethrown by the catch block. -/
def restartBrowser (env : PoolEnv) (st : PoolState) : RestartResult :=
  if st.browserExists = true ∧ env.closeOk = false then
    ⟨true, st, false⟩
  else
    let st1 : PoolState := { st with totalRequestsProcessed := 0 }
    if env.launchOk then
      ⟨false, { st1 with browserExists := true, connected := true }, true⟩
    else
      ⟨true, st1, true⟩

structure TickResult where
  st : PoolState
  /-- how many times this tick invoked restartBrowser -/
  restartCalls : Nat
  /-- how many times this tick invoked initializeBrowser directly
  (the disconnected branch) -/
  reinitCalls : Nat
deriving DecidableEq, Repr

/-- One health-probe tick (the setInterval body, app.js lines 1047-1066):
when the browser is connected, restart only if the served counter strictly
exceeds restartThreshold; when disconnected, reinitialize (which does not
touch the served counter).  Errors escaping either branch are caught and
logged by the try/catch of the tick itself. -/
def healthTick (restartThreshold : Nat) (env : PoolEnv) (st : PoolState) : TickResult :=
  if st.browserExists = true ∧ st.connected = true then
    if st.totalRequestsProcessed > restartThreshold then
      ⟨(restartBrowser env st).st, 1, 0⟩
    else
      ⟨st, 0, 0⟩
  else
    if env.launchOk then
      ⟨{ st with browserExists := true, connected := true }, 0, 1⟩
    else
      ⟨st, 0, 1⟩

/-! ## Smart-crop bounds computation (app.js lines 1519-1559 / 627-667)

The page.evaluate body enumerates the first maxElementsToCheck DOM elements,
skips invisible and complex ones, accumulates min/max of the visible
bounding rectangles (minX and minY start at Infinity, maxX and maxY at 0),
and returns either null or a rectangle expanded by
min(padding, maxPadding) with x,y clamped at 0 and width,height capped at
the window size.  getBoundingClientRect values are modelled as integers;
rect.width and rect.height are right-left and bottom-top. -/

structure DomElement where
  left : Int
  top : Int
  right : Int
  bottom : Int
  display : String
  visibility : String
  childCount : Nat
  tagName : String
deriving DecidableEq, Repr

structure CropConfig where
  enabled : Bool
  minContentSize : Int
  padding : Int
  maxPadding : Int
  maxElementsToCheck : Nat
  skipComplexElements : Bool
deriving DecidableEq, Repr

/-- An element contributes to the bounds unless it fails the visibility check
(zero width or height, display none, visibility hidden) or the
complex-element skip (more than 10 children, or an SVG tag). -/
def elemIncluded (cfg : CropConfig) (e : DomElement) : Bool :=
  decide (¬(e.right - e.left = 0 ∨ e.bottom - e.top = 0
      ∨ e.display = "none" ∨ e.visibility = "hidden")
    ∧ ¬(cfg.skipComplexElements = true ∧ (e.childCount > 10 ∨ e.tagName = "SVG")))

/-- Accumulator of the element loop; minX and minY are none while still at
their Infinity initial value. -/
structure CropAcc where
  minX : Option Int
  minY : Option Int
  maxX : Int
  maxY : Int
  hasContent : Bool
deriving DecidableEq, Repr

/-- One iteration of the element loop. -/
def cropStep (cfg : CropConfig) (acc : CropAcc) (e : DomElement) : CropAcc :=
  if elemIncluded cfg e then
    { minX := some (match acc.minX with | none => e.left | some a => min a e.left)
      minY := some (match acc.minY with | none => e.top | some a => min a e.top)
      maxX := max acc.maxX e.right
      maxY := max acc.maxY e.bottom
      hasContent := true }
  else acc

structure Rect where
  x : Int
  y : Int
  width : Int
  height : Int
deriving DecidableEq, Repr

/-- The padding the source applies: Math.min(padding, maxPadding). -/
def appliedPadding (cfg : CropConfig) : Int :=
  min cfg.padding cfg.maxPadding

/-- The element loop: fold cropStep over the first maxElementsToCheck
elements, from the initial accumulator (Infinity, Infinity, 0, 0, false). -/
def cropFold (cfg : CropConfig) (elems : List DomElement) : CropAcc :=
  (elems.take cfg.maxElementsToCheck).foldl (cropStep cfg) ⟨none, none, 0, 0, false⟩

/-- The contentBounds page.evaluate result: null when no element qualified,
otherwise the accumulated box expanded by the applied padding, with the
origin clamped at 0 and each dimension capped at the window size. -/
def computeContentBounds (cfg : CropConfig) (viewportWidth viewportHeight : Int)
    (elems : List DomElement) : Option Rect :=
  match (cropFold cfg elems).minX, (cropFold cfg elems).minY with
  | some mX, some mY =>
      if (cropFold cfg elems).hasContent then
        some ⟨max 0 (mX - appliedPadding cfg), max 0 (mY - appliedPadding cfg),
              min viewportWidth ((cropFold cfg elems).maxX - mX + appliedPadding cfg * 2),
              min viewportHeight ((cropFold cfg elems).maxY - mY + appliedPadding cfg * 2)⟩
      else none
  | _, _ => none

/-! ## Request shape, configuration and validation (app.js lines 1181-1202)

A request body field is none when absent from the JSON body.  JavaScript
truthiness on these values: a number is truthy iff nonzero, a string iff
nonempty.  The destructuring defaults in the handler apply only to absent
(undefined) fields, so a present 0 or "" keeps its value. -/

structure RequestOptions where
  format : Option String
  quality : Option Int
  smartCrop : Option Bool
deriving DecidableEq, Repr

structure Request where
  htmlContent : Option String
  width : Option Int
  height : Option Int
  options : RequestOptions
deriving DecidableEq, Repr

/-- The configuration values these code paths read
(src/unnamed/part_002, config/default.js). -/
structure Config where
  maxConcurrentPages : Nat
  maxWidth : Int
  maxHeight : Int
  supportedFormats : List String
  defaultWidth : Int
  defaultHeight : Int
  defaultFormat : String
  disableSmartCropInFastMode : Bool
  smartCrop : CropConfig
deriving Repr

/-- config/default.js values: maxConcurrentPages 3, maxWidth/maxHeight 4096,
formats png/jpeg/webp, defaults 1280x720 png, disableSmartCropInFastMode
true, smartCrop enabled with minContentSize 50, padding 10, maxPadding 50,
maxElementsToCheck 100, skipComplexElements true. -/
def defaultConfig : Config :=
  ⟨3, 4096, 4096, ["png", "jpeg", "webp"], 1280, 720, "png", true,
   ⟨true, 50, 10, 50, 100, true⟩⟩

/-- JS truthiness of an optional numeric field. -/
def truthyNum : Option Int → Bool
  | none => false
  | some n => decide (n ≠ 0)

/-- JS truthiness of an optional string field. -/
def truthyStr : Option String → Bool
  | none => false
  | some s => decide (s ≠ "")

/-- The htmlContent check: required and a (nonempty, hence truthy) string. -/
def htmlContentErrors (params : Request) : List String :=
  if truthyStr params.htmlContent = false then
    ["htmlContent is required and must be a string"]
  else []

/-- The width check runs only when width is truthy. -/
def widthErrors (cfg : Config) (params : Request) : List String :=
  match params.width with
  | none => []
  | some w =>
      if w ≠ 0 ∧ (w ≤ 0 ∨ w > cfg.maxWidth) then
        ["width must be a positive number not exceeding " ++ toString cfg.maxWidth]
      else []

/-- The height check runs only when height is truthy. -/
def heightErrors (cfg : Config) (params : Request) : List String :=
  match params.height with
  | none => []
  | some h =>
      if h ≠ 0 ∧ (h ≤ 0 ∨ h > cfg.maxHeight) then
        ["height must be a positive number not exceeding " ++ toString cfg.maxHeight]
      else []

/-- The format check runs only when options.format is truthy. -/
def formatErrors (cfg : Config) (params : Request) : List String :=
  match params.options.format with
  | none => []
  | some f =>
      if f ≠ "" ∧ cfg.supportedFormats.contains f = false then
        ["format must be one of: " ++ ", ".intercalate cfg.supportedFormats]
      else []

/-- validateScreenshotParams (app.js lines 1181-1202): the four checks push
their messages in source order. -/
def validateScreenshotParams (cfg : Config) (params : Request) : List String :=
  htmlContentErrors params ++ widthErrors cfg params
    ++ heightErrors cfg params ++ formatErrors cfg params

/-! ## Capture options and the POST /screenshot handler
(app.js lines 1005-1015, 1236-1623)

The handler model is a function of the request, the initial
activePagesCount, and an environment fixing the outcomes of the fallible
browser operations (newPage, content setup and waits, page.screenshot,
page.close) together with the DOM content the render session exposes to the
smart-crop evaluate.  The express middleware chain runs concurrencyControl
before the handler body; the body increments activePagesCount, validates,
renders, and its finally block decrements the counter and closes the page,
swallowing any close error. -/

structure ScreenshotOptions where
  type : String
  clip : Rect
  quality : Option Int
deriving DecidableEq, Repr

/-- The screenshotOptions construction (app.js lines 1571-1579): quality is
attached only for jpeg or webp and only when the quality of the request is
truthy. -/
def buildScreenshotOptions (format : String) (clip : Rect) (quality : Option Int) :
    ScreenshotOptions :=
  if (format = "jpeg" ∨ format = "webp") ∧ truthyNum quality = true then
    ⟨format, clip, quality⟩
  else
    ⟨format, clip, none⟩

inductive HttpResponse where
  /-- 429 from concurrencyControl, carrying activePagesCount and
  maxConcurrentPages (app.js lines 1005-1015). -/
  | busy (activePagesCount maxConcurrentPages : Nat)
  /-- 400 with the validation error list (lines 1245-1252). -/
  | invalidParams (details : List String)
  /-- 500 from the catch block (lines 1600-1610). -/
  | serverError
  /-- 200 with the Content-Type header image/(format) (lines 1591-1598). -/
  | success (contentType : String)
deriving DecidableEq, Repr

/-- Outcomes of the fallible session operations of one request. -/
structure Env where
  newPageOk : Bool
  contentOk : Bool
  screenshotOk : Bool
  closeOk : Bool
  domElements : List DomElement
deriving Repr

structure BodyResult where
  response : HttpResponse
  /-- browser.newPage() was invoked -/
  newPageCalled : Bool
  /-- the page variable was assigned (newPage succeeded) -/
  pageOpened : Bool
  /-- the options page.screenshot was invoked with, if it was -/
  captureCall : Option ScreenshotOptions
deriving DecidableEq, Repr

/-- The try block of the handler (app.js lines 1241-1610): validation, page
creation, mode-dependent waits (abstracted into contentOk), smart crop,
capture.  Any thrown error lands in the catch block as a 500. -/
def runBody (cfg : Config) (env : Env) (req : Request) : BodyResult :=
  if validateScreenshotParams cfg req ≠ [] then
    ⟨HttpResponse.invalidParams (validateScreenshotParams cfg req), false, false, none⟩
  else if env.newPageOk = false then
    ⟨HttpResponse.serverError, true, false, none⟩
  else if env.contentOk = false then
    ⟨HttpResponse.serverError, true, true, none⟩
  else
    let width := req.width.getD cfg.defaultWidth
    let height := req.height.getD cfg.defaultHeight
    let format := req.options.format.getD cfg.defaultFormat
    let mode := detectPerformanceMode (req.htmlContent.getD (""))
    let shouldSkipSmartCrop : Bool :=
      decide (mode = RenderMode.ultrafast)
        || (decide (mode = RenderMode.fast) && cfg.disableSmartCropInFastMode)
    let fullViewport : Rect := ⟨0, 0, width, height⟩
    let clipRegion :=
      if shouldSkipSmartCrop = false ∧ req.options.smartCrop ≠ some false
          ∧ cfg.smartCrop.enabled = true then
        match computeContentBounds cfg.smartCrop width height env.domElements with
        | some b =>
            if b.width > cfg.smartCrop.minContentSize
                ∧ b.height > cfg.smartCrop.minContentSize then b
            else fullViewport
        | none => fullViewport
      else fullViewport
    let screenshotOptions := buildScreenshotOptions format clipRegion req.options.quality
    if env.screenshotOk = false then
      ⟨HttpResponse.serverError, true, true, some screenshotOptions⟩
    else
      ⟨HttpResponse.success ("image/" ++ format), true, true, some screenshotOptions⟩

structure HandlerResult where
  response : HttpResponse
  /-- the request passed concurrencyControl and entered the handler body -/
  admitted : Bool
  newPageCalled : Bool
  pageOpened : Bool
  /-- the finally block ran page.close() (it does iff a page was opened);
  a close failure is caught there and never alters the response -/
  closeAttempted : Bool
  captureCall : Option ScreenshotOptions
  /-- activePagesCount after the request fully settles -/
  finalActive : Nat
deriving DecidableEq, Repr

/-- The full route: concurrencyControl (app.js lines 1005-1015), then the
handler body bracketed by activePagesCount++ on entry and the finally block
(lines 1611-1622) that decrements the counter and best-effort-closes the
page.  The response never depends on the close outcome because the close is
wrapped in its own try/catch with an empty catch. -/
def screenshotHandler (cfg : Config) (env : Env) (activePagesCount : Nat) (req : Request) :
    HandlerResult :=
  if activePagesCount ≥ cfg.maxConcurrentPages then
    ⟨HttpResponse.busy activePagesCount cfg.maxConcurrentPages,
     false, false, false, false, none, activePagesCount⟩
  else
    let b := runBody cfg env req
    ⟨b.response, true, b.newPageCalled, b.pageOpened, b.pageOpened, b.captureCall,
     activePagesCount + 1 - 1⟩

/-! ## Concrete instances used by the theorems below -/

/-- An environment in which every browser operation succeeds and the page
renders an empty DOM. -/
def allOkEnv : Env := ⟨true, true, true, true, []⟩

/-- A minimal valid request. -/
def simpleReq : Request := ⟨some ("<p>hello</p>"), none, none, ⟨none, none, none⟩⟩

/-- A request whose width exceeds the configured maximum. -/
def oversizedReq : Request := ⟨some ("x"), some 5000, none, ⟨none, none, none⟩⟩

/-- A request whose format is the empty string: present, not in the
supported-format list, but falsy. -/
def falsyFormatReq : Request := ⟨some ("x"), none, none, ⟨some (""), none, none⟩⟩

/-- A jpeg request with quality 50. -/
def jpegReq : Request := ⟨some ("<p>a</p>"), some 800, some 600, ⟨some ("jpeg"), some 50, none⟩⟩

/-- A valid request with width 0. -/
def zeroWidthReq : Request := ⟨some ("<p>hello</p>"), some 0, none, ⟨none, none, none⟩⟩

/-- A valid request with height 0. -/
def zeroHeightReq : Request := ⟨some ("<p>hello</p>"), none, some 0, ⟨none, none, none⟩⟩

/-- An html payload with one img tag and one background-image url. -/
def fastHtml : String := "<img src=q><div style=background-image:url(x)></div>"

/-- The smartCrop portion of config/default.js. -/
def defaultCropConfig : CropConfig := ⟨true, 50, 10, 50, 100, true⟩

/-- A single visible 50x50 element near the bottom-right corner of a 200x200
viewport. -/
def cornerElem : DomElement := ⟨150, 150, 200, 200, "block", "visible", 0, "DIV"⟩

/-- A single visible 100x50 element away from the origin in a 300x300
viewport. -/
def innerElem : DomElement := ⟨20, 30, 120, 80, "block", "visible", 0, "DIV"⟩

/-! ## Theorems -/

/-- C1: concurrencyControl rejects a request iff activePagesCount has
reached maxConcurrentPages — equivalently, a request is admitted iff the
post-increment count is ≤ the maximum; a rejection answers 429 carrying the
current active count and the maximum, and leaves the active count
unchanged. -/
theorem admission_check_and_increment (cfg : Config) (env : Env) (a : Nat) (req : Request) :
    ((screenshotHandler cfg env a req).admitted = true ↔ a + 1 ≤ cfg.maxConcurrentPages)
    ∧ (cfg.maxConcurrentPages ≤ a →
        (screenshotHandler cfg env a req).response
            = HttpResponse.busy a cfg.maxConcurrentPages
        ∧ (screenshotHandler cfg env a req).finalActive = a) := by
  unfold screenshotHandler
  by_cases hge : a ≥ cfg.maxConcurrentPages
  · rw [if_pos hge]
    exact ⟨by simp; omega, fun _ => ⟨rfl, rfl⟩⟩
  · rw [if_neg hge]
    exact ⟨by simp; omega, fun hle => absurd hle hge⟩

/-- C1 witness: with the default maximum 3 and 3 active pages, the request is
rejected as busy 3 3 with the count still 3, and admission is equivalent to
3 + 1 ≤ 3. -/
theorem admission_check_and_increment_witness :
    (screenshotHandler defaultConfig allOkEnv 3 simpleReq).response = HttpResponse.busy 3 3
    ∧ (screenshotHandler defaultConfig allOkEnv 3 simpleReq).finalActive = 3
    ∧ ((screenshotHandler defaultConfig allOkEnv 3 simpleReq).admitted = true
        ↔ 3 + 1 ≤ defaultConfig.maxConcurrentPages) := by
  have hx := admission_check_and_increment defaultConfig allOkEnv 3 simpleReq
  exact ⟨(hx.2 (by decide)).1, (hx.2 (by decide)).2, hx.1⟩

/-- C2: at the failing input — one img element whose source never resolves
(settle instant none) and budget 3000 (the call-site default
options.imageWaitTime at line 1472) — waitForAllImages never returns; its
body never consults the budget at all, for any budget value.  This
contradicts its own JSDoc (timeout in milliseconds) and the specified bound of
budgetMs plus a small constant. -/
theorem waitForAllImages_ignores_budget :
    waitForAllImagesTime [none] [] 3000 = none
    ∧ ∀ timeout : Nat, waitForAllImagesTime [none] [] timeout = none :=
  ⟨rfl, fun _ => rfl⟩

/-- C3 counterexample: with the default crop configuration, a 200x200
viewport and one visible element occupying its bottom-right 50x50 corner,
the computed rectangle is (140, 140, 70, 70): x + width = 210 exceeds the
viewport width 200, so the rectangle does not lie within the viewport. -/
theorem contentBounds_exceeds_viewport_cex :
    computeContentBounds defaultCropConfig 200 200 [cornerElem]
      = some ⟨140, 140, 70, 70⟩
    ∧ ¬((140 : Int) + 70 ≤ 200) := by
  exact ⟨rfl, by decide⟩

/-- C3 amended: every non-null rectangle from the smart-crop bounds
computation has a non-negative origin and each dimension individually capped
at the viewport (x ≥ 0, y ≥ 0, width ≤ viewportWidth,
height ≤ viewportHeight), with the applied padding capped at the configured
maximum; but x + width (and y + height) may exceed the viewport, as the
counterexample shows. -/
theorem contentBounds_amended (cfg : CropConfig) (vw vh : Int) (elems : List DomElement)
    (r : Rect) (h : computeContentBounds cfg vw vh elems = some r) :
    0 ≤ r.x ∧ 0 ≤ r.y ∧ r.width ≤ vw ∧ r.height ≤ vh
    ∧ appliedPadding cfg ≤ cfg.maxPadding := by
  unfold computeContentBounds at h
  split at h
  · split at h
    · rw [Option.some.injEq] at h
      subst h
      exact ⟨le_max_left _ _, le_max_left _ _, min_le_left _ _, min_le_left _ _,
        min_le_right _ _⟩
    · exact absurd h (by simp)
  · exact absurd h (by simp)

/-- C3 witness: for the inner element in a 300x300 viewport the bounds are
(10, 20, 120, 70) and satisfy the amended containment facts. -/
theorem contentBounds_amended_witness :
    0 ≤ (Rect.mk 10 20 120 70).x ∧ 0 ≤ (Rect.mk 10 20 120 70).y
    ∧ (Rect.mk 10 20 120 70).width ≤ 300 ∧ (Rect.mk 10 20 120 70).height ≤ 300
    ∧ appliedPadding defaultCropConfig ≤ defaultCropConfig.maxPadding :=
  contentBounds_amended defaultCropConfig 300 300 [innerElem] ⟨10, 20, 120, 70⟩ rfl

/-- C4 counterexample: with restartThreshold 100 and exactly 100 requests
served, the next health tick performs no restart and leaves the state (and
the counter) unchanged, because the source condition is the strict
totalRequestsProcessed > restartThreshold. -/
theorem healthTick_at_threshold_no_restart_cex :
    healthTick 100 ⟨true, true⟩ ⟨true, true, 100⟩ = ⟨⟨true, true, 100⟩, 0, 0⟩ := rfl

/-- C4 amended: once the served counter strictly exceeds restartThreshold
(that is, after restartThreshold + 1 served requests), the next health-probe
tick with a connected browser triggers exactly one restart and resets
totalRequestsProcessed to zero (given close and relaunch succeed). -/
theorem healthTick_restart_above_threshold (thr : Nat) (env : PoolEnv) (st : PoolState)
    (hb : st.browserExists = true) (hc : st.connected = true)
    (hcount : thr < st.totalRequestsProcessed)
    (hclose : env.closeOk = true) (hlaunch : env.launchOk = true) :
    (healthTick thr env st).restartCalls = 1
    ∧ (healthTick thr env st).st.totalRequestsProcessed = 0 := by
  unfold healthTick
  rw [if_pos ⟨hb, hc⟩, if_pos hcount]
  refine ⟨rfl, ?_⟩
  unfold restartBrowser
  rw [if_neg (by simp [hclose]), if_pos hlaunch]

/-- C4 witness: threshold 100, counter 101, healthy pool: one restart, and
the counter is back to zero. -/
theorem healthTick_restart_above_threshold_witness :
    (healthTick 100 ⟨true, true⟩ ⟨true, true, 101⟩).restartCalls = 1
    ∧ (healthTick 100 ⟨true, true⟩ ⟨true, true, 101⟩).st.totalRequestsProcessed = 0 :=
  healthTick_restart_above_threshold 100 ⟨true, true⟩ ⟨true, true, 101⟩ rfl rfl
    (by decide) rfl rfl

/-- C5 counterexample: the empty-string format is not in the supported-format
list, yet the request passes validation with an empty error list and the
handler proceeds to open a page (newPage is called) and answers 200 with
Content-Type image/ rather than a 400 validation error: the format check
runs only for truthy format values. -/
theorem falsy_format_bypasses_validation_cex :
    defaultConfig.supportedFormats.contains ("") = false
    ∧ validateScreenshotParams defaultConfig falsyFormatReq = []
    ∧ (screenshotHandler defaultConfig allOkEnv 0 falsyFormatReq).newPageCalled = true
    ∧ (screenshotHandler defaultConfig allOkEnv 0 falsyFormatReq).response
        = HttpResponse.success ("image/") := by
  refine ⟨rfl, rfl, rfl, rfl⟩

/-- C5 amended: for an admitted request (activePagesCount below the maximum,
positive configured maxima) whose width or height exceeds the configured
maximum, or whose options.format is a truthy (non-empty) string not in the
supported-format list, the handler returns a 400 validation error with a
non-empty detail list and never calls browser.newPage; a falsy format such
as the empty string bypasses the format check, as the counterexample
shows. -/
theorem validation_rejects_before_newPage (cfg : Config) (env : Env) (a : Nat) (req : Request)
    (ha : a < cfg.maxConcurrentPages)
    (hmw : 0 < cfg.maxWidth) (hmh : 0 < cfg.maxHeight)
    (h : (∃ w, req.width = some w ∧ cfg.maxWidth < w)
       ∨ (∃ v, req.height = some v ∧ cfg.maxHeight < v)
       ∨ (∃ f, req.options.format = some f ∧ f ≠ ""
            ∧ cfg.supportedFormats.contains f = false)) :
    (screenshotHandler cfg env a req).newPageCalled = false
    ∧ ∃ errs, errs ≠ []
        ∧ (screenshotHandler cfg env a req).response = HttpResponse.invalidParams errs := by
  have herr : validateScreenshotParams cfg req ≠ [] := by
    unfold validateScreenshotParams
    intro hnil
    simp only [List.append_eq_nil] at hnil
    obtain ⟨⟨⟨-, hwd⟩, hht⟩, hfm⟩ := hnil
    rcases h with ⟨w, hw, hgt⟩ | ⟨v, hv, hgt⟩ | ⟨f, hf, hne, hnc⟩
    · unfold widthErrors at hwd
      simp only [hw] at hwd
      rw [if_pos ⟨by omega, Or.inr hgt⟩] at hwd
      exact List.cons_ne_nil _ _ hwd
    · unfold heightErrors at hht
      simp only [hv] at hht
      rw [if_pos ⟨by omega, Or.inr hgt⟩] at hht
      exact List.cons_ne_nil _ _ hht
    · unfold formatErrors at hfm
      simp only [hf] at hfm
      rw [if_pos ⟨hne, hnc⟩] at hfm
      exact List.cons_ne_nil _ _ hfm
  unfold screenshotHandler
  rw [if_neg (by omega)]
  unfold runBody
  rw [if_pos herr]
  exact ⟨rfl, validateScreenshotParams cfg req, herr, rfl⟩

/-- C5 witness: width 5000 with the default maximum 4096 yields a 400 with a
non-empty error list and no newPage call. -/
theorem validation_rejects_before_newPage_witness :
    (screenshotHandler defaultConfig allOkEnv 0 oversizedReq).newPageCalled = false
    ∧ ∃ errs, errs ≠ []
        ∧ (screenshotHandler defaultConfig allOkEnv 0 oversizedReq).response
            = HttpResponse.invalidParams errs :=
  validation_rejects_before_newPage defaultConfig allOkEnv 0 oversizedReq
    (by decide) (by decide) (by decide) (Or.inl ⟨5000, rfl, by decide⟩)

/-- C6: detectPerformanceMode returns ultrafast exactly when the img-tag
match count plus the background-image match count is 0, fast exactly when it
is 1 or 2, and standard exactly when it is at least 3. -/
theorem detectPerformanceMode_tiers (h : String) :
    (detectPerformanceMode h = RenderMode.ultrafast ↔ countImgTags h + countBgUrl h = 0)
    ∧ (detectPerformanceMode h = RenderMode.fast ↔
        (countImgTags h + countBgUrl h = 1 ∨ countImgTags h + countBgUrl h = 2))
    ∧ (detectPerformanceMode h = RenderMode.standard ↔ 3 ≤ countImgTags h + countBgUrl h) := by
  unfold detectPerformanceMode
  by_cases h0 : countImgTags h + countBgUrl h = 0
  · simp [h0]
  · by_cases h2 : countImgTags h + countBgUrl h ≤ 2
    · simp [h0, h2]
      omega
    · simp [h0, h2]
      omega

/-- C6 witness: one img tag and one background-image url give the fast
tier. -/
theorem detectPerformanceMode_tiers_witness :
    detectPerformanceMode fastHtml = RenderMode.fast := by
  have hx := detectPerformanceMode_tiers fastHtml
  exact hx.2.1.mpr (Or.inr (by decide))

/-- C7 counterexample: when closing the old browser fails, restartBrowser
rethrows the error to its caller, does not reset the served counter, and
never reaches the relaunch — the opposite of best-effort swallowing. -/
theorem restartBrowser_close_failure_propagates_cex :
    restartBrowser ⟨false, true⟩ ⟨true, true, 57⟩ = ⟨true, ⟨true, true, 57⟩, false⟩ := rfl

/-- C7 amended: restartBrowser wraps close, counter reset and relaunch in a
try whose catch rethrows, so a close failure is propagated to the caller,
the relaunch is not attempted and the counter is untouched; only when the
close succeeds does the restart reset the counter and proceed to
relaunch. -/
theorem restartBrowser_close_failure (env : PoolEnv) (st : PoolState)
    (hb : st.browserExists = true) :
    (env.closeOk = false →
        (restartBrowser env st).threw = true
        ∧ (restartBrowser env st).relaunchAttempted = false
        ∧ (restartBrowser env st).st = st)
    ∧ (env.closeOk = true →
        (restartBrowser env st).relaunchAttempted = true
        ∧ (restartBrowser env st).st.totalRequestsProcessed = 0) := by
  constructor
  · intro hcl
    unfold restartBrowser
    rw [if_pos ⟨hb, hcl⟩]
    exact ⟨rfl, rfl, rfl⟩
  · intro hcl
    unfold restartBrowser
    rw [if_neg (by simp [hcl])]
    cases hl : env.launchOk <;> simp [hl]

/-- C7 witness: a failing close on an existing browser with counter 5:
error propagated, no relaunch, state unchanged. -/
theorem restartBrowser_close_failure_witness :
    (restartBrowser ⟨false, true⟩ ⟨true, true, 5⟩).threw = true
    ∧ (restartBrowser ⟨false, true⟩ ⟨true, true, 5⟩).relaunchAttempted = false
    ∧ (restartBrowser ⟨false, true⟩ ⟨true, true, 5⟩).st = ⟨true, true, 5⟩ :=
  (restartBrowser_close_failure ⟨false, true⟩ ⟨true, true, 5⟩ rfl).1 rfl

/-- C8: on every exit path of the /screenshot handler the active count ends
where it started (the finally block undoes the entry increment), the page is
close-attempted whenever one was opened, and the response is identical
whether or not the close succeeds (the close failure is swallowed by its own
try/catch and never replaces the primary result or error). -/
theorem handler_cleanup_every_path (cfg : Config) (env : Env) (a : Nat) (req : Request) :
    (screenshotHandler cfg env a req).finalActive = a
    ∧ ((screenshotHandler cfg env a req).pageOpened = true →
        (screenshotHandler cfg env a req).closeAttempted = true)
    ∧ screenshotHandler cfg { env with closeOk := false } a req
        = screenshotHandler cfg { env with closeOk := true } a req := by
  refine ⟨?_, ?_, ?_⟩
  · unfold screenshotHandler
    split
    · rfl
    · simp
  · unfold screenshotHandler
    split
    · intro hp
      exact hp
    · intro hp
      exact hp
  · cases env
    rfl

/-- C8 witness: a concrete successful request at active count 2 ends with
the count back at 2 and the close attempted. -/
theorem handler_cleanup_every_path_witness :
    (screenshotHandler defaultConfig allOkEnv 2 simpleReq).finalActive = 2
    ∧ (screenshotHandler defaultConfig allOkEnv 2 simpleReq).closeAttempted = true := by
  have hx := handler_cleanup_every_path defaultConfig allOkEnv 2 simpleReq
  exact ⟨hx.1, hx.2.1 (by decide)⟩

/-- C9: quality is attached to the capture options iff the format is jpeg or
webp and a (truthy) quality was supplied; png capture options never carry a
quality; and the end-to-end jpeg request with quality 50 produces Content-Type
image/jpeg with the encoder receiving quality 50. -/
theorem quality_forwarding :
    (∀ (c : Rect) (v : Int), v ≠ 0 →
        (buildScreenshotOptions ("jpeg") c (some v)).quality = some v
        ∧ (buildScreenshotOptions ("webp") c (some v)).quality = some v)
    ∧ (∀ (c : Rect) (q : Option Int), (buildScreenshotOptions ("png") c q).quality = none)
    ∧ (∀ (fmt : String) (c : Rect) (q : Option Int) (v : Int),
        (buildScreenshotOptions fmt c q).quality = some v →
          (fmt = "jpeg" ∨ fmt = "webp") ∧ q = some v)
    ∧ (screenshotHandler defaultConfig allOkEnv 0 jpegReq).response
        = HttpResponse.success ("image/jpeg")
    ∧ (screenshotHandler defaultConfig allOkEnv 0 jpegReq).captureCall
        = some ⟨"jpeg", ⟨0, 0, 800, 600⟩, some 50⟩ := by
  refine ⟨?_, ?_, ?_, rfl, rfl⟩
  · intro c v hv
    have ht : truthyNum (some v) = true := by simp [truthyNum, hv]
    constructor
    · unfold buildScreenshotOptions
      rw [if_pos ⟨Or.inl rfl, ht⟩]
    · unfold buildScreenshotOptions
      rw [if_pos ⟨Or.inr rfl, ht⟩]
  · intro c q
    unfold buildScreenshotOptions
    rw [if_neg (by rintro ⟨h | h, -⟩ <;> simp at h)]
  · intro fmt c q v h
    by_cases hc : (fmt = "jpeg" ∨ fmt = "webp") ∧ truthyNum q = true
    · rw [buildScreenshotOptions, if_pos hc] at h
      exact ⟨hc.1, h⟩
    · rw [buildScreenshotOptions, if_neg hc] at h
      exact absurd h (by simp)

/-- C9 witness: jpeg with quality 50 forwards quality 50. -/
theorem quality_forwarding_witness :
    (buildScreenshotOptions ("jpeg") ⟨0, 0, 1, 1⟩ (some 50)).quality = some 50 :=
  (quality_forwarding.1 ⟨0, 0, 1, 1⟩ 50 (by decide)).1

/-- C10: a request with width 0 (or height 0) yields an empty validation
error list — the range check runs only for truthy widths — so the request
passes validation and proceeds into the render pipeline (newPage is called
and the request succeeds) instead of being rejected with a 400. -/
theorem zero_dimension_passes_validation :
    (validateScreenshotParams defaultConfig zeroWidthReq = []
      ∧ (screenshotHandler defaultConfig allOkEnv 0 zeroWidthReq).newPageCalled = true
      ∧ (screenshotHandler defaultConfig allOkEnv 0 zeroWidthReq).response
          = HttpResponse.success ("image/png"))
    ∧ (validateScreenshotParams defaultConfig zeroHeightReq = []
      ∧ (screenshotHandler defaultConfig allOkEnv 0 zeroHeightReq).newPageCalled = true
      ∧ (screenshotHandler defaultConfig allOkEnv 0 zeroHeightReq).response
          = HttpResponse.success ("image/png")) := by
  exact ⟨⟨rfl, rfl, rfl⟩, ⟨rfl, rfl, rfl⟩⟩

end Screenshot
